import Mathlib

/-
Verification of the araa-gps notebooks (kernel assessment, quasar time delay,
transit model).  The Python/JAX code is shallowly embedded: arrays become
`List ℚ`, boolean masks become `List Bool`, JAX's functional array updates
become list operations, and the external numerical libraries (tinygp, numpyro,
jaxopt, exo4jax) are abstracted as explicit function parameters.  Every
definition mirrors a concrete piece of notebook code, cited in its docstring
by the cell it comes from.
-/

namespace AraaGps

/-! ## Kernel assessment notebook: train/held-out mask

Source (assessment.ipynb, data-simulation cell):
  mask_train = jax.random.uniform(key_split, (N,)) < 0.7
  mask_train = mask_train.at[:10].set(False)
  mask_train = mask_train.at[-10:].set(False)
The uniform draws are modelled as an arbitrary list `us : List ℚ` of length N.
-/

/-- Elementwise comparison `jax.random.uniform(key_split, (N,)) < 0.7`. -/
def mask_raw (us : List ℚ) : List Bool :=
  us.map (fun u => decide (u < 7/10))

/-- JAX functional update `m.at[:k].set(False)`. -/
def setFirstFalse (k : ℕ) (m : List Bool) : List Bool :=
  m.mapIdx (fun i b => if i < k then false else b)

/-- JAX functional update `m.at[-k:].set(False)` (positions `m.length - k` on). -/
def setLastFalse (k : ℕ) (m : List Bool) : List Bool :=
  m.mapIdx (fun i b => if m.length - k ≤ i then false else b)

/-- The train mask built exactly as in the notebook: threshold at 0.7, then
clear the first 10 and the last 10 positions. -/
def mask_train (us : List ℚ) : List Bool :=
  setLastFalse 10 (setFirstFalse 10 (mask_raw us))

/-- Indices selected for training: `t[mask_train]`. -/
def train_indices (us : List ℚ) : List ℕ :=
  (List.range us.length).filter (fun i => (mask_train us).getD i false)

/-- Indices held out: `t[~mask_train]`. -/
def heldout_indices (us : List ℚ) : List ℕ :=
  (List.range us.length).filter (fun i => !(mask_train us).getD i false)

theorem mask_raw_length (us : List ℚ) : (mask_raw us).length = us.length := by
  simp [mask_raw]

theorem setFirstFalse_length (k : ℕ) (m : List Bool) :
    (setFirstFalse k m).length = m.length := by
  simp [setFirstFalse]

theorem setLastFalse_length (k : ℕ) (m : List Bool) :
    (setLastFalse k m).length = m.length := by
  simp [setLastFalse]

theorem mask_train_length (us : List ℚ) :
    (mask_train us).length = us.length := by
  simp [mask_train, setLastFalse_length, setFirstFalse_length, mask_raw_length]

/-- Closed form for one entry of the mask. -/
theorem mask_train_getD (us : List ℚ) (i : ℕ) (h : i < us.length) :
    (mask_train us).getD i false =
      if i < 10 ∨ us.length - 10 ≤ i then false
      else decide (us.getD i 0 < 7/10) := by
  have h1 : (setFirstFalse 10 (mask_raw us)).length = us.length := by
    simp [setFirstFalse, mask_raw]
  have h2 : us[i]? = some us[i] := List.getElem?_eq_getElem h
  have h3 : us.getD i 0 = us[i] := by
    simp [List.getD_eq_getElem?_getD, h2]
  rw [mask_train, setLastFalse, setFirstFalse, mask_raw, List.getD_eq_getElem?_getD]
  simp only [List.getElem?_mapIdx, List.getElem?_map, h2, Option.map_some, h3]
  rw [List.length_mapIdx, List.length_map]
  by_cases hb1 : i < 10
  · simp [hb1]
  · by_cases hb2 : us.length - 10 ≤ i <;> simp [hb1, hb2]

/-- Entries outside the list contribute `false` to `getD`. -/
theorem mask_train_getD_oob (us : List ℚ) (i : ℕ) (h : us.length ≤ i) :
    (mask_train us).getD i false = false := by
  rw [List.getD_eq_getElem?_getD, List.getElem?_eq_none]
  · rfl
  · rw [mask_train_length]; exact h

theorem length_filter_add_length_filter_not {α : Type} (p : α → Bool) (l : List α) :
    (l.filter p).length + (l.filter (fun a => !p a)).length = l.length := by
  induction l with
  | nil => rfl
  | cons a l ih =>
    by_cases h : p a <;> simp [List.filter_cons, h] <;> omega

/-- Counting the `true` entries of a mask by filtering `range` over `getD`. -/
theorem countP_range_getD (m : List Bool) :
    (List.range m.length).countP (fun i => m.getD i false) = m.count true := by
  induction m with
  | nil => rfl
  | cons b m' ih =>
    rw [List.length_cons, List.range_succ_eq_map, List.countP_cons, List.countP_map]
    have hcomp :
        ((fun i => (b :: m').getD i false) ∘ Nat.succ) = fun i => m'.getD i false := by
      funext i
      simp [Function.comp, List.getD_cons_succ]
    rw [hcomp, ih, List.count_cons]
    cases b <;> simp [List.getD_cons_zero]

theorem train_indices_length (us : List ℚ) :
    (train_indices us).length = (mask_train us).count true := by
  rw [train_indices, ← List.countP_eq_length_filter, ← mask_train_length us,
    countP_range_getD]

theorem train_heldout_length_sum (us : List ℚ) :
    (train_indices us).length + (heldout_indices us).length = us.length := by
  have h := length_filter_add_length_filter_not
    (fun i => (mask_train us).getD i false) (List.range us.length)
  rw [List.length_range] at h
  exact h

/-- C1: for every outcome of the uniform draws, the train/held-out masks
partition the `N` observation indices (each index is in exactly one of the
two subsets), the first 10 and last 10 mask positions are `False`, and in
the concrete case `N = 120` the training-set size is the number of `True`
entries of the mask while the held-out size is the complement, the two
summing to 120. -/
theorem C1_mask_partition (us : List ℚ) :
    ((mask_train us).length = us.length)
    ∧ (∀ i, i < us.length → i < 10 → (mask_train us).getD i false = false)
    ∧ (∀ i, i < us.length → us.length - 10 ≤ i →
        (mask_train us).getD i false = false)
    ∧ (∀ i, i < us.length → (i ∈ train_indices us ∨ i ∈ heldout_indices us))
    ∧ (∀ i, ¬(i ∈ train_indices us ∧ i ∈ heldout_indices us))
    ∧ ((train_indices us).length + (heldout_indices us).length = us.length)
    ∧ (us.length = 120 →
        (train_indices us).length = (mask_train us).count true
        ∧ (heldout_indices us).length = 120 - (mask_train us).count true
        ∧ (train_indices us).length + (heldout_indices us).length = 120) := by
  refine ⟨mask_train_length us, ?_, ?_, ?_, ?_, train_heldout_length_sum us, ?_⟩
  · intro i hi h10
    rw [mask_train_getD us i hi]
    simp [h10]
  · intro i hi h10
    rw [mask_train_getD us i hi]
    simp [h10]
  · intro i hi
    cases hb : (mask_train us).getD i false with
    | true =>
      left
      rw [train_indices, List.mem_filter, List.mem_range]
      exact ⟨hi, hb⟩
    | false =>
      right
      rw [heldout_indices, List.mem_filter, List.mem_range]
      exact ⟨hi, by rw [hb]; rfl⟩
  · rintro i ⟨ht, hh⟩
    rw [train_indices, List.mem_filter] at ht
    rw [heldout_indices, List.mem_filter] at hh
    have := ht.2
    have := hh.2
    simp_all
  · intro h120
    refine ⟨train_indices_length us, ?_, ?_⟩
    · have hsum := train_heldout_length_sum us
      have htr := train_indices_length us
      omega
    · rw [train_heldout_length_sum us, h120]

/-- C1 witness: the theorem applied at the concrete draw list of 120 zeros
(N = 120); all hypotheses discharged by computation. -/
theorem C1_mask_partition_witness :
    (train_indices (List.replicate 120 (0 : ℚ))).length
        = (mask_train (List.replicate 120 (0 : ℚ))).count true
    ∧ (train_indices (List.replicate 120 (0 : ℚ))).length
        + (heldout_indices (List.replicate 120 (0 : ℚ))).length = 120 := by
  have h := C1_mask_partition (List.replicate 120 (0 : ℚ))
  have hlen : (List.replicate 120 (0 : ℚ)).length = 120 := by simp
  exact ⟨(h.2.2.2.2.2.2 hlen).1, (h.2.2.2.2.2.2 hlen).2.2⟩

/-! ## Quasar notebook: grid-search lag initialization

Source (assessment.ipynb, quasar section):
  opt = jaxopt.ScipyMinimize(fun=loss)
  init = dict(true_params)
  minimum = loss(init), init
  lags = []
  vals = []
  for lag in jnp.linspace(0, 1000, 100):
      init["lag"] = lag
      soln = opt.run(init)
      lags.append(soln.params["lag"])
      vals.append(soln.state.fun_val)
      if soln.state.fun_val < minimum[0]:
          minimum = soln.state.fun_val, soln.params
  init = minimum[1]

`minimum[1]` initially aliases the mutable dict `init`, and the loop mutates
`init["lag"]` in place; the embedding keeps track of that aliasing with
`MinRef`.  The external optimizer is an arbitrary function
`opt : QParams → ℚ × QParams` returning `(soln.state.fun_val, soln.params)`,
and the loss an arbitrary function `loss : QParams → ℚ`. -/

/-- The quasar parameter dictionary `{lag, log_ell, amps, means}`. -/
structure QParams where
  lag : ℚ
  log_ell : ℚ
  amps : ℚ × ℚ
  means : ℚ × ℚ
  deriving DecidableEq

/-- Whether `minimum[1]` aliases the mutable dict `init` or holds a frozen
optimizer result `soln.params`. -/
inductive MinRef where
  | toInit : MinRef
  | frozen : QParams → MinRef
  deriving DecidableEq

/-- The loop state: the mutable dict `init`, the pair `minimum`
(value and reference), and the `lags`/`vals` accumulators. -/
structure GSState where
  init : QParams
  minVal : ℚ
  minRef : MinRef
  lags : List ℚ
  vals : List ℚ
  deriving DecidableEq

/-- One iteration of the grid loop: mutate `init["lag"]`, run the optimizer,
append to `lags`/`vals`, update `minimum` on strict improvement. -/
def gsStep (opt : QParams → ℚ × QParams) (s : GSState) (lag : ℚ) : GSState :=
  let init := { s.init with lag := lag }
  let soln := opt init
  let lags := s.lags ++ [soln.2.lag]
  let vals := s.vals ++ [soln.1]
  if soln.1 < s.minVal then
    { init := init, minVal := soln.1, minRef := MinRef.frozen soln.2,
      lags := lags, vals := vals }
  else
    { init := init, minVal := s.minVal, minRef := s.minRef,
      lags := lags, vals := vals }

/-- The whole loop, from `init = dict(true_params)` (here `base`) and
`minimum = loss(init), init`. -/
def gsRun (loss : QParams → ℚ) (opt : QParams → ℚ × QParams)
    (base : QParams) (grid : List ℚ) : GSState :=
  grid.foldl (gsStep opt)
    { init := base, minVal := loss base, minRef := MinRef.toInit,
      lags := [], vals := [] }

/-- The loop's result `(minimum[0], minimum[1])`, dereferencing the alias. -/
def gsResult (loss : QParams → ℚ) (opt : QParams → ℚ × QParams)
    (base : QParams) (grid : List ℚ) : ℚ × QParams :=
  let s := gsRun loss opt base grid
  (s.minVal, match s.minRef with | MinRef.toInit => s.init | MinRef.frozen p => p)

/-- The pure "take the better of accumulator and outcome" update. -/
def updMin (acc : ℚ × MinRef) (o : ℚ × QParams) : ℚ × MinRef :=
  if o.1 < acc.1 then (o.1, MinRef.frozen o.2) else acc

theorem qparams_update_lag_eq (p base : QParams) (g : ℚ)
    (h1 : p.log_ell = base.log_ell) (h2 : p.amps = base.amps)
    (h3 : p.means = base.means) :
    ({ p with lag := g } : QParams) = { base with lag := g } := by
  cases p; cases base; simp_all

/-- Characterization of the loop: since only the `lag` entry of `init` is
mutated, the optimizer is called at `{ base with lag := g }` for each grid
point `g` in order, and the `minimum` pair is a pure fold of `updMin` over
those outcomes. -/
theorem gsRun_foldl_eq (opt : QParams → ℚ × QParams) (base : QParams)
    (grid : List ℚ) :
    ∀ s : GSState,
      s.init.log_ell = base.log_ell → s.init.amps = base.amps →
      s.init.means = base.means →
      grid.foldl (gsStep opt) s =
        { init := grid.foldl (fun p g => { p with lag := g }) s.init,
          minVal := ((grid.map (fun g => opt { base with lag := g })).foldl
            updMin (s.minVal, s.minRef)).1,
          minRef := ((grid.map (fun g => opt { base with lag := g })).foldl
            updMin (s.minVal, s.minRef)).2,
          lags := s.lags ++ grid.map (fun g => (opt { base with lag := g }).2.lag),
          vals := s.vals ++ grid.map (fun g => (opt { base with lag := g }).1) } := by
  induction grid with
  | nil =>
    intro s h1 h2 h3
    cases s
    simp
  | cons g rest ih =>
    intro s h1 h2 h3
    have hq : ({ s.init with lag := g } : QParams) = { base with lag := g } :=
      qparams_update_lag_eq _ _ _ h1 h2 h3
    rw [List.foldl_cons]
    by_cases hlt : (opt { s.init with lag := g }).1 < s.minVal
    · have hstep : gsStep opt s g =
          { init := { s.init with lag := g },
            minVal := (opt { s.init with lag := g }).1,
            minRef := MinRef.frozen (opt { s.init with lag := g }).2,
            lags := s.lags ++ [(opt { s.init with lag := g }).2.lag],
            vals := s.vals ++ [(opt { s.init with lag := g }).1] } := by
        simp [gsStep, hlt]
      rw [hstep, ih _ (by simp [h1]) (by simp [h2]) (by simp [h3])]
      have hupd : updMin (s.minVal, s.minRef) (opt { base with lag := g })
          = ((opt { s.init with lag := g }).1,
              MinRef.frozen (opt { s.init with lag := g }).2) := by
        rw [← hq]
        simp [updMin, hlt]
      simp [hq, List.map_cons, List.foldl_cons, hupd, List.append_assoc]
    · have hstep : gsStep opt s g =
          { init := { s.init with lag := g },
            minVal := s.minVal,
            minRef := s.minRef,
            lags := s.lags ++ [(opt { s.init with lag := g }).2.lag],
            vals := s.vals ++ [(opt { s.init with lag := g }).1] } := by
        simp [gsStep, hlt]
      rw [hstep, ih _ (by simp [h1]) (by simp [h2]) (by simp [h3])]
      have hupd : updMin (s.minVal, s.minRef) (opt { base with lag := g })
          = (s.minVal, s.minRef) := by
        rw [← hq]
        simp [updMin, hlt]
      simp [hq, List.map_cons, List.foldl_cons, hupd, List.append_assoc]

theorem updMin_foldl_fst (outs : List (ℚ × QParams)) :
    ∀ acc : ℚ × MinRef,
      (outs.foldl updMin acc).1 = (outs.map Prod.fst).foldl min acc.1 := by
  induction outs with
  | nil => intro acc; rfl
  | cons o rest ih =>
    intro acc
    rw [List.foldl_cons, List.map_cons, List.foldl_cons, ih]
    congr 1
    unfold updMin
    split
    · rename_i h
      exact (min_eq_right (le_of_lt h)).symm
    · rename_i h
      exact (min_eq_left (not_lt.mp h)).symm

theorem updMin_foldl_mem (outs : List (ℚ × QParams)) :
    ∀ acc : ℚ × MinRef,
      outs.foldl updMin acc = acc
      ∨ ∃ o ∈ outs, outs.foldl updMin acc = (o.1, MinRef.frozen o.2) := by
  induction outs with
  | nil => intro acc; left; rfl
  | cons o rest ih =>
    intro acc
    rw [List.foldl_cons]
    rcases ih (updMin acc o) with h | ⟨o', ho', h⟩
    · rw [h]
      unfold updMin
      split
      · right
        exact ⟨o, List.mem_cons_self o rest, rfl⟩
      · left; rfl
    · right
      exact ⟨o', List.mem_cons_of_mem _ ho', h⟩

/-- Concrete stand-in for `true_params` (the irrational `log 100` replaced
by a placeholder; the claims quantify over the dict anyway). -/
def qbase : QParams :=
  { lag := 420, log_ell := 0, amps := (8/100, 12/100), means := (1743/100, 1753/100) }

/-- A loss that only looks at the lag. -/
def qloss (p : QParams) : ℚ := p.lag

/-- An honest optimizer outcome that does not move from its start. -/
def qoptStay (p : QParams) : ℚ × QParams := (qloss p, p)

/-- An honest optimizer outcome that moves the lag to 1 (which
`ScipyMinimize` is free to do, since the whole dict is optimized). -/
def qoptDrift (p : QParams) : ℚ × QParams :=
  (1, { p with lag := 1 })

/-- C2 (failing-input evaluation): when no grid-point optimization beats the
initial loss, the loop returns recorded loss `loss(true_params) = 420`
paired with the initial dict whose `lag` entry was mutated in place to the
last grid value `1000`; the returned dictionary does not achieve the
recorded loss value. -/
theorem C2_alias_bug_eval :
    (gsResult qloss qoptStay qbase [1000]).1 = 420
    ∧ (gsResult qloss qoptStay qbase [1000]).2.lag = 1000
    ∧ qloss (gsResult qloss qoptStay qbase [1000]).2 = 1000
    ∧ qloss (gsResult qloss qoptStay qbase [1000]).2
        ≠ (gsResult qloss qoptStay qbase [1000]).1 := by
  refine ⟨rfl, rfl, rfl, by decide⟩

/-- C3 counterexample: the optimizer is started at the grid lag but the lag
is not held there; with grid `[0]` and an (honest) optimizer outcome that
moves the lag, the selected parameters have lag `1`, which is neither the
grid value nor the initial lag. -/
theorem C3_lag_not_held_counterexample :
    (gsResult qloss qoptDrift qbase [0]).2.lag = 1
    ∧ (gsResult qloss qoptDrift qbase [0]).2.lag ∉ ([0] : List ℚ)
    ∧ (gsResult qloss qoptDrift qbase [0]).2.lag ≠ qbase.lag := by
  refine ⟨rfl, by decide, by decide⟩

/-- C3 (amended): the sweep calls the optimizer at every grid point in
order, started from the dict with the lag set to the grid value (all
parameters — the lag included — are then optimized, the lag being only
initialized, not held fixed); the recorded minimum loss is the minimum of
the initial loss and all per-grid-point outcomes, and the selected pair is
either the (aliased, lag-mutated) initial candidate or one of the optimizer
outputs. -/
theorem C3_grid_sweep_amended (loss : QParams → ℚ) (opt : QParams → ℚ × QParams)
    (base : QParams) (grid : List ℚ) :
    (gsRun loss opt base grid).vals
        = grid.map (fun g => (opt { base with lag := g }).1)
    ∧ (gsRun loss opt base grid).lags
        = grid.map (fun g => (opt { base with lag := g }).2.lag)
    ∧ (gsResult loss opt base grid).1
        = (grid.map (fun g => (opt { base with lag := g }).1)).foldl min (loss base)
    ∧ (gsResult loss opt base grid
          = (loss base, (gsRun loss opt base grid).init)
        ∨ ∃ g ∈ grid, gsResult loss opt base grid = opt { base with lag := g }) := by
  have hrun := gsRun_foldl_eq opt base grid
    { init := base, minVal := loss base, minRef := MinRef.toInit,
      lags := [], vals := [] } rfl rfl rfl
  rw [gsRun, gsResult, gsRun]
  rw [hrun]
  refine ⟨by simp, by simp, ?_, ?_⟩
  · rw [updMin_foldl_fst, List.map_map]
    rfl
  · rcases updMin_foldl_mem
      (grid.map (fun g => opt { base with lag := g })) (loss base, MinRef.toInit)
      with h | ⟨o, ho, h⟩
    · left
      simp only [h]
    · right
      rcases List.mem_map.mp ho with ⟨g, hg, rfl⟩
      refine ⟨g, hg, ?_⟩
      simp only [h]

/-! ## Quasar notebook: the Multiband kernel wrapper

Source (assessment.ipynb, quasar section):
  @tinygp.helpers.dataclass
  class Multiband(kernels.quasisep.Wrapper):
      amplitudes: jnp.ndarray
      def coord_to_sortable(self, X):
          return X[0]
      def observation_model(self, X):
          return self.amplitudes[X[1]] * self.kernel.observation_model(X[0])

tinygp's quasisep machinery computes the covariance of a `Wrapper` kernel
from exactly two things the wrapper exposes: the sortable coordinate of each
input and the observation-model vector of each input; that machinery is the
abstract `engine` below. -/

/-- A multiband input coordinate `X = (t, band)` with band index in {0, 1}. -/
structure MBX where
  t : ℚ
  band : Fin 2

/-- `coord_to_sortable(self, X): return X[0]`. -/
def coord_to_sortable (X : MBX) : ℚ := X.t

/-- `observation_model(self, X)`: the wrapped kernel's observation vector at
`X[0]`, scaled by `amplitudes[X[1]]`.  The state-space vector of the wrapped
Matern-3/2 kernel is modelled as `Fin 2 → ℚ`. -/
def observation_model (amps : Fin 2 → ℚ) (baseObs : ℚ → Fin 2 → ℚ) (X : MBX) :
    Fin 2 → ℚ :=
  fun j => amps X.band * baseObs X.t j

/-- The covariance tinygp computes for the wrapper: an arbitrary external
function of the two sortable coordinates and the two observation vectors. -/
def multibandEval (engine : ℚ → ℚ → (Fin 2 → ℚ) → (Fin 2 → ℚ) → ℚ)
    (amps : Fin 2 → ℚ) (baseObs : ℚ → Fin 2 → ℚ) (X1 X2 : MBX) : ℚ :=
  engine (coord_to_sortable X1) (coord_to_sortable X2)
    (observation_model amps baseObs X1) (observation_model amps baseObs X2)

/-- Relabeling of the two bands. -/
def swapBand (b : Fin 2) : Fin 2 := ⟨1 - b.val, by omega⟩

/-- C4: for every pair of inputs with band indices in {0, 1}, swapping the
two band indices and simultaneously swapping the two amplitude entries
leaves the computed covariance unchanged, whatever the underlying
quasiseparable evaluation engine and base kernel are. -/
theorem C4_multiband_swap_symmetry
    (engine : ℚ → ℚ → (Fin 2 → ℚ) → (Fin 2 → ℚ) → ℚ)
    (amps : Fin 2 → ℚ) (baseObs : ℚ → Fin 2 → ℚ)
    (t1 t2 : ℚ) (b1 b2 : Fin 2) :
    multibandEval engine amps baseObs ⟨t1, b1⟩ ⟨t2, b2⟩
      = multibandEval engine (fun i => amps (swapBand i)) baseObs
          ⟨t1, swapBand b1⟩ ⟨t2, swapBand b2⟩ := by
  have hswap : ∀ b : Fin 2, swapBand (swapBand b) = b := by decide
  have hobs : ∀ (t : ℚ) (b : Fin 2),
      observation_model (fun i => amps (swapBand i)) baseObs ⟨t, swapBand b⟩
        = observation_model amps baseObs ⟨t, b⟩ := by
    intro t b
    funext j
    simp [observation_model, hswap]
  simp only [multibandEval, coord_to_sortable]
  rw [hobs, hobs]

/-! ## Assessment notebook: the MCMC target conditions on training data only

Source (assessment.ipynb):
  def model(kernel_builder, t_train, y_train, t_test=None, y_test=None, t_pred=None):
      gp = GaussianProcess(kernel_builder(), t_train, diag=yerr**2)
      if t_test is None:
          numpyro.sample("y_train", gp.numpyro_dist(), obs=y_train)
      else:
          log_prob_train, gp_cond = gp.condition(y_train, t_test, diag=yerr**2)
          log_prob_test = gp_cond.log_probability(y_test)
          numpyro.factor("log_prob_train", log_prob_train)
          numpyro.deterministic("log_prob_test", log_prob_test)
      if t_pred is not None:
          gp_pred = gp.condition(y_train, t_pred, diag=yerr**2).gp
          numpyro.deterministic("mean_pred", gp_pred.loc)
          numpyro.deterministic("std_pred", jnp.sqrt(gp_pred.variance))
-/

/-- External tinygp operations, abstract (`K` is the kernel type):
`logProbability k t diag y` is `GaussianProcess(k, t, diag).log_probability(y)`;
`conditionLogProb` is the first component of `gp.condition(y, t2, diag2)`;
`condLogProbOf` is `gp.condition(...).gp.log_probability(y2)`;
`predLoc`/`predStd` are the conditioned GP's mean and standard deviation. -/
structure GPOps (K : Type) where
  logProbability : K → List ℚ → ℚ → List ℚ → ℚ
  conditionLogProb : K → List ℚ → ℚ → List ℚ → List ℚ → ℚ → ℚ
  condLogProbOf : K → List ℚ → ℚ → List ℚ → List ℚ → ℚ → List ℚ → ℚ
  predLoc : K → List ℚ → ℚ → List ℚ → List ℚ → ℚ → List ℚ
  predStd : K → List ℚ → ℚ → List ℚ → List ℚ → ℚ → List ℚ

/-- A numpyro kernel builder: the joint log-prior of its latent
hyperparameter vector and the kernel made from it. -/
structure KernelBuilder (K : Type) where
  prior : List ℚ → ℚ
  make : List ℚ → K

/-- `build_exp_sq`: σ ~ HalfNormal(10), ρ ~ HalfNormal(5),
kernel `σ² * ExpSquared(ρ)`.  The HalfNormal log-pdf and the kernel
constructor are abstract. -/
def build_exp_sq (K : Type) (halfNormalLogPdf : ℚ → ℚ → ℚ)
    (expSquared : ℚ → ℚ → K) : KernelBuilder K :=
  { prior := fun θ => halfNormalLogPdf 10 (θ.getD 0 0) + halfNormalLogPdf 5 (θ.getD 1 0),
    make := fun θ => expSquared ((θ.getD 0 0)^2) (θ.getD 1 0) }

/-- `build_matern`: σ ~ HalfNormal(10), ρ ~ HalfNormal(5),
kernel `σ² * Matern32(ρ)`. -/
def build_matern (K : Type) (halfNormalLogPdf : ℚ → ℚ → ℚ)
    (matern32 : ℚ → ℚ → K) : KernelBuilder K :=
  { prior := fun θ => halfNormalLogPdf 10 (θ.getD 0 0) + halfNormalLogPdf 5 (θ.getD 1 0),
    make := fun θ => matern32 ((θ.getD 0 0)^2) (θ.getD 1 0) }

/-- `build_raquad`: σ ~ HalfNormal(10), ρ ~ HalfNormal(5), α ~ HalfNormal(10),
kernel `σ² * RationalQuadratic(ρ, alpha=α)`. -/
def build_raquad (K : Type) (halfNormalLogPdf : ℚ → ℚ → ℚ)
    (rationalQuadratic : ℚ → ℚ → ℚ → K) : KernelBuilder K :=
  { prior := fun θ => halfNormalLogPdf 10 (θ.getD 0 0) + halfNormalLogPdf 5 (θ.getD 1 0)
      + halfNormalLogPdf 10 (θ.getD 2 0),
    make := fun θ => rationalQuadratic ((θ.getD 0 0)^2) (θ.getD 1 0) (θ.getD 2 0) }

/-- The outcome of one model evaluation: the MCMC target log-density and the
recorded deterministic sites (scalars as one-element lists). -/
structure ModelOut where
  density : ℚ
  dets : List (String × List ℚ)

/-- The assessment model, mirroring the Python `model` function: the target
density is the prior plus either the training likelihood (`y_train` observed)
or the `log_prob_train` factor; `y_test` is an argument of the model but is
used only in the deterministic `log_prob_test`. -/
def runModel {K : Type} (ops : GPOps K) (b : KernelBuilder K) (yerr : ℚ)
    (θ : List ℚ) (t_train y_train : List ℚ) (t_test : Option (List ℚ))
    (y_test : List ℚ) (t_pred : Option (List ℚ)) : ModelOut :=
  let kernel := b.make θ
  let base : ModelOut :=
    match t_test with
    | none =>
        { density := b.prior θ + ops.logProbability kernel t_train (yerr^2) y_train,
          dets := [] }
    | some tt =>
        { density := b.prior θ
            + ops.conditionLogProb kernel t_train (yerr^2) y_train tt (yerr^2),
          dets := [("log_prob_test",
            [ops.condLogProbOf kernel t_train (yerr^2) y_train tt (yerr^2) y_test])] }
  match t_pred with
  | none => base
  | some tp =>
      { base with dets := base.dets
          ++ [("mean_pred", ops.predLoc kernel t_train (yerr^2) y_train tp (yerr^2)),
              ("std_pred", ops.predStd kernel t_train (yerr^2) y_train tp (yerr^2))] }

/-- C5: for each of the three kernel candidates, two evaluations of the model
that differ only in the held-out values `y_test` have the identical MCMC
target log-density — the held-out data never influences the posterior over
hyperparameters. -/
theorem C5_density_ignores_y_test {K : Type} (ops : GPOps K)
    (hn : ℚ → ℚ → ℚ) (mkES mkM32 : ℚ → ℚ → K) (mkRQ : ℚ → ℚ → ℚ → K)
    (yerr : ℚ) (θ : List ℚ) (t_train y_train : List ℚ)
    (t_test : Option (List ℚ)) (y_test y_test' : List ℚ)
    (t_pred : Option (List ℚ)) :
    ∀ b ∈ [build_exp_sq K hn mkES, build_matern K hn mkM32, build_raquad K hn mkRQ],
      (runModel ops b yerr θ t_train y_train t_test y_test t_pred).density
        = (runModel ops b yerr θ t_train y_train t_test y_test' t_pred).density := by
  intro b _
  unfold runModel
  cases t_test <;> cases t_pred <;> rfl

/-- Trivial external GP operations, used to instantiate witnesses. -/
def gpops0 : GPOps ℚ :=
  ⟨fun _ _ _ _ => 0, fun _ _ _ _ _ _ => 0, fun _ _ _ _ _ _ _ => 0,
    fun _ _ _ _ _ _ => [], fun _ _ _ _ _ _ => []⟩

/-- C5 witness: the theorem applied at a concrete instance (trivial external
operations, the squared-exponential builder, a supplied test set, two
different held-out vectors). -/
theorem C5_density_ignores_y_test_witness :
    (runModel gpops0
        (build_exp_sq ℚ (fun _ _ => 0) (fun _ _ => 0)) 1 [1, 1] [0] [0]
        (some [1]) [5] none).density
      = (runModel gpops0
        (build_exp_sq ℚ (fun _ _ => 0) (fun _ _ => 0)) 1 [1, 1] [0] [0]
        (some [1]) [7] none).density := by
  exact C5_density_ignores_y_test gpops0
    (fun _ _ => 0) (fun _ _ => 0) (fun _ _ => 0) (fun _ _ _ => 0)
    1 [1, 1] [0] [0] (some [1]) [5] [7] none
    (build_exp_sq ℚ (fun _ _ => 0) (fun _ _ => 0)) (by simp)

/-! ## Simulation determinism (assessment and transit notebooks)

Every JAX random primitive is a pure function of its PRNG key, so the
simulations are modelled as functions of the seed, the configuration and a
bundle of (pure) external primitives. -/

/-- The simulating kernel `2.5**2 * kernels.ExpSquared(0.5)`. -/
structure ExpSqKernel where
  amp2 : ℚ
  scale : ℚ

/-- External JAX/tinygp primitives used by the assessment simulation
(`Key` is the PRNG key type). -/
structure AssessSimOps (Key : Type) where
  prngKey : ℕ → Key
  split3 : Key → Key × Key × Key
  uniform : Key → ℕ → ℚ → ℚ → List ℚ
  gpSampleExpSq : ExpSqKernel → List ℚ → ℚ → Key → List ℚ

/-- The assessment data simulation (assessment.ipynb):
  key_t, key_y, key_split = jax.random.split(jax.random.PRNGKey(100), 3)
  t = jnp.sort(jax.random.uniform(key_t, (N,), minval=0.0, maxval=10.0))
  y = GaussianProcess(2.5**2 * ExpSquared(0.5), t, diag=yerr**2).sample(key_y)
  mask_train = jax.random.uniform(key_split, (N,)) < 0.7, with boundaries cleared. -/
def simulate_assessment {Key : Type} (ops : AssessSimOps Key) (seed : ℕ)
    (N : ℕ) (yerr : ℚ) : List ℚ × List ℚ × List Bool :=
  let keys := ops.split3 (ops.prngKey seed)
  let t := (ops.uniform keys.1 N 0 10).insertionSort (· ≤ ·)
  let kernel : ExpSqKernel := { amp2 := (5/2)^2, scale := 1/2 }
  let y := ops.gpSampleExpSq kernel t (yerr^2) keys.2.1
  let mask := mask_train (ops.uniform keys.2.2 N 0 1)
  (t, y, mask)

/-- The abstract log/exp used where the notebooks call `jnp.log`/`jnp.exp`
on constants (those values are irrational, so they stay symbolic). -/
structure RealFns where
  expFn : ℚ → ℚ
  logFn : ℚ → ℚ

/-- The `true_params` dict of transit.ipynb. -/
structure TransitParams where
  log_f0 : ℚ
  u1 : ℚ
  u2 : ℚ
  log_duration : ℚ
  t0 : ℚ
  b : ℚ
  log_r : ℚ
  log_amp : ℚ
  log_ell : ℚ

/-- `true_params` of the transit notebook. -/
def transit_true_params (fns : RealFns) : TransitParams :=
  { log_f0 := 0, u1 := 3/10, u2 := 2/10, log_duration := fns.logFn (12/100),
    t0 := 0, b := 1/10, log_r := fns.logFn (1/10),
    log_amp := fns.logFn (2/1000), log_ell := fns.logFn (2/100) }

/-- `jnp.linspace(a, b, n)` (endpoint included). -/
def linspace (a b : ℚ) (n : ℕ) : List ℚ :=
  (List.range n).map (fun i => a + (b - a) * i / ((n : ℚ) - 1))

/-- External primitives of the transit simulation: the GP sample is a pure
function of the kernel amplitude and scale, the input grid, the diagonal,
the mean-function parameters and the PRNG key. -/
structure TransitSimOps (Key : Type) where
  prngKey : ℕ → Key
  gpSampleTransit : ℚ → ℚ → List ℚ → ℚ → TransitParams → Key → List ℚ

/-- The transit data simulation (transit.ipynb):
  t = jnp.linspace(-0.2, 0.2, 75); y_err = 0.001
  gp = build_gp(true_params, t, diag=y_err**2)   -- exp(2 log_amp) * Matern32(exp(log_ell))
  y = gp.sample(jax.random.PRNGKey(1047)). -/
def simulate_transit {Key : Type} (ops : TransitSimOps Key) (fns : RealFns)
    (seed : ℕ) : List ℚ × List ℚ :=
  let t := linspace (-2/10) (2/10) 75
  let y_err : ℚ := 1/1000
  let p := transit_true_params fns
  let y := ops.gpSampleTransit (fns.expFn (2 * p.log_amp)) (fns.expFn p.log_ell)
    t (y_err^2) p (ops.prngKey seed)
  (t, y)

/-- C6: each experiment's simulation is a deterministic function of its PRNG
seed and configuration alone: two runs with the same primitives, seed,
observation count and noise level produce bit-identical observations, in
both the assessment and the transit notebooks. -/
theorem C6_simulation_deterministic {Key : Type} (opsA : AssessSimOps Key)
    (opsT : TransitSimOps Key) (fns : RealFns) (seedA seedT N : ℕ) (yerr : ℚ)
    (r1 r2 : List ℚ × List ℚ × List Bool) (s1 s2 : List ℚ × List ℚ)
    (h1 : r1 = simulate_assessment opsA seedA N yerr)
    (h2 : r2 = simulate_assessment opsA seedA N yerr)
    (h3 : s1 = simulate_transit opsT fns seedT)
    (h4 : s2 = simulate_transit opsT fns seedT) :
    r1 = r2 ∧ s1 = s2 :=
  ⟨h1.trans h2.symm, h3.trans h4.symm⟩

/-- Trivial assessment-simulation primitives, used for the C6 witness. -/
def simOpsA0 : AssessSimOps Unit :=
  ⟨fun _ => (), fun _ => ((), (), ()), fun _ n _ _ => List.replicate n 0,
    fun _ _ _ _ => []⟩

/-- Trivial transit-simulation primitives, used for the C6 witness. -/
def simOpsT0 : TransitSimOps Unit :=
  ⟨fun _ => (), fun _ _ _ _ _ _ => []⟩

/-- C6 witness: the theorem applied with trivial primitives at the concrete
seeds 100 (assessment) and 1047 (transit), N = 120, yerr = 0.25. -/
theorem C6_simulation_deterministic_witness :
    simulate_assessment simOpsA0 100 120 (1/4)
      = simulate_assessment simOpsA0 100 120 (1/4)
    ∧ simulate_transit simOpsT0 ⟨id, id⟩ 1047
      = simulate_transit simOpsT0 ⟨id, id⟩ 1047 :=
  C6_simulation_deterministic simOpsA0 simOpsT0 ⟨id, id⟩ 100 1047 120 (1/4)
    _ _ _ _ rfl rfl rfl rfl

/-! ## Observation immutability (all three notebooks)

Each notebook's post-generation cells are embedded as state transformers on a
record splitting the observation arrays from the scratch variables those
cells assign; every assignment in the source maps to the update of the
corresponding field, with calls into the external libraries abstracted. -/

/-- Boolean-mask selection `xs[m]`. -/
def maskSelect {α : Type} (xs : List α) (m : List Bool) : List α :=
  (List.zip xs m).filterMap (fun p => if p.2 then some p.1 else none)

/-- `jnp.min` of a list. -/
def qlistMin (l : List ℚ) : ℚ := l.foldl min (l.headD 0)

/-- `jnp.max` of a list. -/
def qlistMax (l : List ℚ) : ℚ := l.foldl max (l.headD 0)

/-- The quasar observation arrays `X = (times, bands)`, `y`, `diag`. -/
structure QuasarObs where
  X_t : List ℚ
  X_band : List ℕ
  y : List ℚ
  diag : List ℚ

/-- Variables the post-generation quasar cells assign (`S` abstracts the
MCMC sampler result). -/
structure QuasarScratch (S : Type) where
  init : QParams
  minVal : ℚ
  lags : List ℚ
  vals : List ℚ
  t_lagged : List ℚ
  t_grid : List ℚ
  samples : Option S
  lag_med : ℚ
  pred_inds : List ℕ

/-- The quasar notebook state. -/
structure QuasarNb (S : Type) where
  obs : QuasarObs
  scr : QuasarScratch S

/-- External calls made by the post-generation quasar cells. -/
structure QuasarPostOps (S : Type) where
  loss : QParams → ℚ
  opt : QParams → ℚ × QParams
  true_params : QParams
  grid : List ℚ
  mcmcRun : QParams → QuasarObs → List ℚ → S
  median : S → ℚ
  predSel : S → List ℕ

/-- Grid-search cell: assigns `init`, `minimum`, `lags`, `vals`. -/
def quasar_cell_gridsearch {S : Type} (ops : QuasarPostOps S)
    (st : QuasarNb S) : QuasarNb S :=
  let s := gsRun ops.loss ops.opt ops.true_params ops.grid
  let r := gsResult ops.loss ops.opt ops.true_params ops.grid
  { st with scr := { st.scr with
      init := r.2, minVal := r.1, lags := s.lags, vals := s.vals } }

/-- `t_lagged = X[0] - minimum[1]["lag"] * X[1]`;
`t_grid = jnp.linspace(t_lagged.min() - 200, t_lagged.max() + 200, 1000)`. -/
def quasar_cell_tgrid {S : Type} (st : QuasarNb S) : QuasarNb S :=
  let tl := List.zipWith (fun t b => t - st.scr.init.lag * (b : ℚ))
    st.obs.X_t st.obs.X_band
  { st with scr := { st.scr with
      t_lagged := tl,
      t_grid := linspace (qlistMin tl - 200) (qlistMax tl + 200) 1000 } }

/-- MCMC cell: `sampler.run(jax.random.PRNGKey(12), X, diag, y)` with the
grid-search result as initialization; assigns `samples` only. -/
def quasar_cell_mcmc {S : Type} (ops : QuasarPostOps S) (st : QuasarNb S) :
    QuasarNb S :=
  { st with scr := { st.scr with
      samples := some (ops.mcmcRun st.scr.init st.obs st.scr.t_grid) } }

/-- Final plotting cell: `lag = jnp.median(samples["lag"])`,
`inds = jax.random.randint(...)`; reads `X`, `y`, `diag` for the error bars
but assigns only scratch variables. -/
def quasar_cell_plot {S : Type} (ops : QuasarPostOps S) (st : QuasarNb S) :
    QuasarNb S :=
  match st.scr.samples with
  | none => st
  | some s =>
    { st with scr := { st.scr with
        lag_med := ops.median s, pred_inds := ops.predSel s } }

/-- All quasar cells after the data-generation cell, in notebook order. -/
def quasar_post {S : Type} (ops : QuasarPostOps S) (st : QuasarNb S) :
    QuasarNb S :=
  quasar_cell_plot ops (quasar_cell_mcmc ops (quasar_cell_tgrid
    (quasar_cell_gridsearch ops st)))

/-- The assessment observation arrays and the (generated-once) train mask. -/
structure AssessObs where
  t : List ℚ
  y : List ℚ
  mask : List Bool

/-- Variables the post-generation assessment cells assign (`S` abstracts an
ArviZ inference-data object, `O` a predictive-sample record). -/
structure AssessScratch (S O : Type) where
  t_pred : List ℚ
  samp : Option O
  inf_exp_sq : Option S
  inf_matern : Option S
  inf_raquad : Option S
  ns_exp_sq : Option (ℚ × ℚ)
  ns_matern : Option (ℚ × ℚ)
  ns_raquad : Option (ℚ × ℚ)
  log_Z : List ℚ
  log_Z_uncert : List ℚ

/-- The assessment notebook state. -/
structure AssessNb (S O : Type) where
  obs : AssessObs
  scr : AssessScratch S O

/-- External calls of the post-generation assessment cells: the MAP-predict
cell, one MCMC run per kernel candidate (identified 0/1/2), and one nested
sampler per candidate. -/
structure AssessPostOps (S O : Type) where
  optimizePredict : List ℚ → List ℚ → List ℚ → O
  runSampler : ℕ → List ℚ → List ℚ → List ℚ → List ℚ → S
  nsRun : ℕ → List ℚ → List ℚ → ℚ × ℚ

/-- `t_pred = jnp.linspace(-1, 11, 500)`; MAP fit and predictive samples on
the training data. -/
def assess_cell_opt {S O : Type} (ops : AssessPostOps S O)
    (st : AssessNb S O) : AssessNb S O :=
  let t_pred := linspace (-1) 11 500
  { st with scr := { st.scr with
      t_pred := t_pred,
      samp := some (ops.optimizePredict (maskSelect st.obs.t st.obs.mask)
        (maskSelect st.obs.y st.obs.mask) t_pred) } }

/-- The three `sampler_*.run(PRNGKey(0), t[mask], y[mask], t[~mask], y[~mask])`
cells. -/
def assess_cell_samplers {S O : Type} (ops : AssessPostOps S O)
    (st : AssessNb S O) : AssessNb S O :=
  let t_tr := maskSelect st.obs.t st.obs.mask
  let y_tr := maskSelect st.obs.y st.obs.mask
  let t_te := maskSelect st.obs.t (st.obs.mask.map (fun b => !b))
  let y_te := maskSelect st.obs.y (st.obs.mask.map (fun b => !b))
  { st with scr := { st.scr with
      inf_exp_sq := some (ops.runSampler 0 t_tr y_tr t_te y_te),
      inf_matern := some (ops.runSampler 1 t_tr y_tr t_te y_te),
      inf_raquad := some (ops.runSampler 2 t_tr y_tr t_te y_te) } }

/-- The three nested-sampling cells `ns_*.run(PRNGKey(0), t, y)` and the
`log_Z` aggregation cell. -/
def assess_cell_ns {S O : Type} (ops : AssessPostOps S O)
    (st : AssessNb S O) : AssessNb S O :=
  let ns0 := ops.nsRun 0 st.obs.t st.obs.y
  let ns1 := ops.nsRun 1 st.obs.t st.obs.y
  let ns2 := ops.nsRun 2 st.obs.t st.obs.y
  { st with scr := { st.scr with
      ns_exp_sq := some ns0, ns_matern := some ns1, ns_raquad := some ns2,
      log_Z := [ns0.1, ns2.1, ns1.1],
      log_Z_uncert := [ns0.2, ns2.2, ns1.2] } }

/-- All assessment cells after the data-generation cell (the remaining cells
only draw figures from already-computed values). -/
def assess_post {S O : Type} (ops : AssessPostOps S O) (st : AssessNb S O) :
    AssessNb S O :=
  assess_cell_ns ops (assess_cell_samplers ops (assess_cell_opt ops st))

/-- The transit observation arrays. -/
structure TransitObs where
  t : List ℚ
  y : List ℚ
  y_err : ℚ

/-- Variables the post-generation transit cells assign. -/
structure TransitScratch (S : Type) where
  sampler_wn : Option S
  sampler_gp : Option S

/-- The transit notebook state. -/
structure TransitNb (S : Type) where
  obs : TransitObs
  scr : TransitScratch S

/-- External sampler of the transit notebook:
`sampler.run(key, t, y_err, y, use_gp=...)`. -/
structure TransitPostOps (S : Type) where
  runTransitSampler : Bool → List ℚ → ℚ → List ℚ → S

/-- `sampler_wn.run(PRNGKey(11), t, y_err, y, use_gp=False)`. -/
def transit_cell_wn {S : Type} (ops : TransitPostOps S) (st : TransitNb S) :
    TransitNb S :=
  { st with scr := { st.scr with
      sampler_wn := some (ops.runTransitSampler false st.obs.t st.obs.y_err st.obs.y) } }

/-- `sampler.run(PRNGKey(12), t, y_err, y, use_gp=True)`. -/
def transit_cell_gp {S : Type} (ops : TransitPostOps S) (st : TransitNb S) :
    TransitNb S :=
  { st with scr := { st.scr with
      sampler_gp := some (ops.runTransitSampler true st.obs.t st.obs.y_err st.obs.y) } }

/-- All transit cells after the data-generation cell. -/
def transit_post {S : Type} (ops : TransitPostOps S) (st : TransitNb S) :
    TransitNb S :=
  transit_cell_gp ops (transit_cell_wn ops st)

/-- C7: in each of the three notebooks, the post-generation pipeline
(splitting, grid search, model fitting, scoring, plotting) leaves every
observation coordinate, value and uncertainty unchanged. -/
theorem C7_observations_immutable {S O : Type}
    (opsQ : QuasarPostOps S) (stQ : QuasarNb S)
    (opsA : AssessPostOps S O) (stA : AssessNb S O)
    (opsT : TransitPostOps S) (stT : TransitNb S) :
    (quasar_post opsQ stQ).obs = stQ.obs
    ∧ (assess_post opsA stA).obs = stA.obs
    ∧ (transit_post opsT stT).obs = stT.obs := by
  have hplot : ∀ st : QuasarNb S, (quasar_cell_plot opsQ st).obs = st.obs := by
    intro st
    unfold quasar_cell_plot
    split <;> rfl
  have hq : (quasar_post opsQ stQ).obs = stQ.obs := by
    rw [quasar_post, hplot]
    rfl
  have ha : (assess_post opsA stA).obs = stA.obs := by
    rw [assess_post, assess_cell_ns, assess_cell_samplers, assess_cell_opt]
  have ht : (transit_post opsT stT).obs = stT.obs := by
    rw [transit_post, transit_cell_gp, transit_cell_wn]
  exact ⟨hq, ha, ht⟩

/-! ## Error propagation (C8)

The notebooks contain no try/except: every delegated call is modelled as an
`Except`-valued function, and the drivers merely sequence the calls, so a
raised error short-circuits the cell with no retry, no fallback and no
partial result. -/

/-- One iteration of the grid loop when the optimizer can raise. -/
def gsStepE {E : Type} (opt : QParams → Except E (ℚ × QParams))
    (s : GSState) (lag : ℚ) : Except E GSState :=
  let init := { s.init with lag := lag }
  match opt init with
  | Except.error e => Except.error e
  | Except.ok soln =>
      Except.ok <|
        if soln.1 < s.minVal then
          { init := init, minVal := soln.1, minRef := MinRef.frozen soln.2,
            lags := s.lags ++ [soln.2.lag], vals := s.vals ++ [soln.1] }
        else
          { init := init, minVal := s.minVal, minRef := s.minRef,
            lags := s.lags ++ [soln.2.lag], vals := s.vals ++ [soln.1] }

/-- The grid loop with a fallible optimizer: each iteration runs only if the
previous ones succeeded. -/
def gsRunE {E : Type} (opt : QParams → Except E (ℚ × QParams)) :
    List ℚ → GSState → Except E GSState
  | [], s => Except.ok s
  | g :: rest, s =>
      match gsStepE opt s g with
      | Except.error e => Except.error e
      | Except.ok s' => gsRunE opt rest s'

/-- A sampler-driver cell: run the external sampler, then post-process; the
code sequences the two with no exception handling. -/
def samplerCellE {E S A : Type} (run : Except E S) (post : S → A) :
    Except E A :=
  match run with
  | Except.error e => Except.error e
  | Except.ok s => Except.ok (post s)

theorem gsRunE_error {E : Type} (opt : QParams → Except E (ℚ × QParams))
    (base : QParams) (e : E) :
    ∀ (pre : List ℚ) (g : ℚ) (post : List ℚ) (s : GSState),
      s.init.log_ell = base.log_ell → s.init.amps = base.amps →
      s.init.means = base.means →
      (∀ g' ∈ pre, ∃ r, opt { base with lag := g' } = Except.ok r) →
      opt { base with lag := g } = Except.error e →
      gsRunE opt (pre ++ g :: post) s = Except.error e := by
  intro pre
  induction pre with
  | nil =>
    intro g post s h1 h2 h3 _ herr
    have hq := qparams_update_lag_eq s.init base g h1 h2 h3
    simp only [List.nil_append, gsRunE, gsStepE]
    rw [hq, herr]
  | cons g0 rest ih =>
    intro g post s h1 h2 h3 hpre herr
    have hq := qparams_update_lag_eq s.init base g0 h1 h2 h3
    obtain ⟨r, hr⟩ := hpre g0 (List.mem_cons_self g0 rest)
    have hpre' : ∀ g' ∈ rest, ∃ r', opt { base with lag := g' } = Except.ok r' :=
      fun g' hg' => hpre g' (List.mem_cons_of_mem _ hg')
    simp only [List.cons_append, gsRunE]
    split
    · rename_i e' heq
      simp only [gsStepE] at heq
      rw [hq, hr] at heq
      simp at heq
    · rename_i s' heq
      simp only [gsStepE] at heq
      rw [hq, hr] at heq
      have hinit : s'.init = { base with lag := g0 } := by
        split at heq
        · exact Except.noConfusion heq
        · have hs := Except.ok.inj heq
          rw [← hs]
          split <;> rfl
      exact ih g post s' (by rw [hinit]) (by rw [hinit]) (by rw [hinit])
        hpre' herr

/-- C8: delegated-call errors propagate uncaught.  If the optimizer raises
at some grid point (all earlier grid points succeeding), the grid-search
cell's outcome is exactly that error — no retry, no fallback candidate, no
partial minimum is recorded; and if a sampler invocation raises, the
sampler cell's outcome is exactly that error, with no partial result. -/
theorem C8_errors_propagate {E S A : Type}
    (opt : QParams → Except E (ℚ × QParams)) (base : QParams) (loss0 : ℚ)
    (grid pre post : List ℚ) (g : ℚ) (e : E)
    (run : Except E S) (postFn : S → A) (eS : E)
    (hgrid : grid = pre ++ g :: post)
    (hpre : ∀ g' ∈ pre, ∃ r, opt { base with lag := g' } = Except.ok r)
    (herr : opt { base with lag := g } = Except.error e)
    (hrun : run = Except.error eS) :
    gsRunE opt grid
        { init := base, minVal := loss0, minRef := MinRef.toInit,
          lags := [], vals := [] } = Except.error e
    ∧ samplerCellE run postFn = Except.error eS := by
  constructor
  · subst hgrid
    exact gsRunE_error opt base e pre g post _ rfl rfl rfl hpre herr
  · subst hrun
    rfl

/-- An optimizer invocation that always raises error 7 (for the C8 witness). -/
def optFail : QParams → Except ℕ (ℚ × QParams) := fun _ => Except.error 7

/-- A sampler invocation that raises error 3 (for the C8 witness). -/
def runFail : Except ℕ ℕ := Except.error 3

/-- C8 witness: the theorem applied at a concrete failing optimizer and a
concrete failing sampler run. -/
theorem C8_errors_propagate_witness :
    gsRunE optFail [0]
        { init := qbase, minVal := 420, minRef := MinRef.toInit,
          lags := [], vals := [] } = Except.error 7
    ∧ samplerCellE runFail (fun n : ℕ => n) = Except.error 3 :=
  C8_errors_propagate optFail qbase 420 [0] [] [] 0 7
    runFail (fun n : ℕ => n) 3 rfl (by simp) rfl rfl

/-! ## Quasar build_gp: sorted, consistently permuted GP inputs (C9)

Source (assessment.ipynb, quasar section):
  def build_gp(params, X, diag):
      band = X[1]
      t = time_delay_transform(params["lag"], X)
      inds = jnp.argsort(t)
      kernel = Multiband(amplitudes=params["amps"], kernel=...Matern32(...))
      mean = partial(mean_func, params["means"])
      return GaussianProcess(kernel, (t[inds], band[inds]), diag=diag[inds], mean=mean), inds
with call sites `loss` (`-gp.log_probability(y[inds])`), the numpyro model
(`obs=y[inds]`), and the generation cell (`y = y.at[inds].set(gp.sample(...))`). -/

/-- The index order realized by stable `jnp.argsort`: by key, ties broken by
original position. -/
def idxLe (ts : List ℚ) (i j : ℕ) : Prop :=
  ts.getD i 0 < ts.getD j 0 ∨ (ts.getD i 0 = ts.getD j 0 ∧ i ≤ j)

instance idxLe_decidable (ts : List ℚ) : DecidableRel (idxLe ts) := fun i j => by
  unfold idxLe
  infer_instance

instance idxLe_total (ts : List ℚ) : IsTotal ℕ (idxLe ts) := by
  constructor
  intro i j
  rcases lt_trichotomy (ts.getD i 0) (ts.getD j 0) with h | h | h
  · exact Or.inl (Or.inl h)
  · rcases Nat.le_total i j with hij | hij
    · exact Or.inl (Or.inr ⟨h, hij⟩)
    · exact Or.inr (Or.inr ⟨h.symm, hij⟩)
  · exact Or.inr (Or.inl h)

instance idxLe_trans (ts : List ℚ) : IsTrans ℕ (idxLe ts) := by
  constructor
  intro i j k hij hjk
  rcases hij with h1 | ⟨e1, l1⟩
  · rcases hjk with h2 | ⟨e2, l2⟩
    · exact Or.inl (h1.trans h2)
    · exact Or.inl (e2 ▸ h1)
  · rcases hjk with h2 | ⟨e2, l2⟩
    · exact Or.inl (lt_of_le_of_lt (le_of_eq e1) h2)
    · exact Or.inr ⟨e1.trans e2, l1.trans l2⟩

/-- Stable `jnp.argsort ts`. -/
def argsort (ts : List ℚ) : List ℕ :=
  (List.range ts.length).insertionSort (idxLe ts)

/-- Fancy-indexing gather `xs[inds]`. -/
def gather (xs : List ℚ) (inds : List ℕ) : List ℚ :=
  inds.map (fun i => xs.getD i 0)

/-- JAX scatter `ys.at[inds].set(vs)`: sequential functional updates. -/
def scatterSet (ys : List ℚ) : List ℕ → List ℚ → List ℚ
  | [], _ => ys
  | _ :: _, [] => ys
  | i :: is, v :: vs => scatterSet (ys.set i v) is vs

/-- `time_delay_transform(lag, X) = t - lag * band`. -/
def time_delay_transform (lag t : ℚ) (band : ℕ) : ℚ := t - lag * (band : ℚ)

/-- The lag-transformed times of `build_gp`. -/
def lagged_times (lag : ℚ) (X_t : List ℚ) (X_band : List ℕ) : List ℚ :=
  List.zipWith (time_delay_transform lag) X_t X_band

/-- The GP input arrays `build_gp` constructs, plus the returned `inds`. -/
structure GPInputs where
  t_sorted : List ℚ
  band_sorted : List ℕ
  diag_sorted : List ℚ
  inds : List ℕ

/-- `build_gp(params, X, diag)`: sort by the lag-transformed time and gather
times, bands and noise variances through the same `inds`. -/
def build_gp (lag : ℚ) (X_t : List ℚ) (X_band : List ℕ) (diag : List ℚ) :
    GPInputs :=
  let t := lagged_times lag X_t X_band
  let inds := argsort t
  { t_sorted := gather t inds,
    band_sorted := inds.map (fun i => X_band.getD i 0),
    diag_sorted := gather diag inds,
    inds := inds }

/-- The quasar `loss(params) = -gp.log_probability(y[inds])`, with the GP's
log-probability abstract over the built inputs. -/
def quasar_loss (gpLogProb : GPInputs → List ℚ → ℚ) (lag : ℚ)
    (X_t : List ℚ) (X_band : List ℕ) (diag y : List ℚ) : ℚ :=
  -(gpLogProb (build_gp lag X_t X_band diag)
    (gather y (build_gp lag X_t X_band diag).inds))

/-- The pair the numpyro model hands to the GP:
`numpyro.sample("y", gp.numpyro_dist(), obs=y[inds])`. -/
def quasar_model_obs (lag : ℚ) (X_t : List ℚ) (X_band : List ℕ)
    (diag y : List ℚ) : GPInputs × List ℚ :=
  (build_gp lag X_t X_band diag,
    gather y (build_gp lag X_t X_band diag).inds)

/-- The generation cell: `y = jnp.empty_like(y); y = y.at[inds].set(sample)`
with the `inds` returned by `build_gp(true_params, X, diag)`. -/
def quasar_generate (lag : ℚ) (X_t : List ℚ) (X_band : List ℕ)
    (diag empty sample : List ℚ) : List ℚ :=
  scatterSet empty (build_gp lag X_t X_band diag).inds sample

theorem argsort_perm (ts : List ℚ) :
    (argsort ts).Perm (List.range ts.length) :=
  List.perm_insertionSort (idxLe ts) (List.range ts.length)

theorem argsort_nodup (ts : List ℚ) : (argsort ts).Nodup :=
  ((argsort_perm ts).nodup_iff).mpr (List.nodup_range _)

theorem argsort_mem_lt (ts : List ℚ) (i : ℕ) (h : i ∈ argsort ts) :
    i < ts.length :=
  List.mem_range.mp ((argsort_perm ts).mem_iff.mp h)

theorem argsort_sorted (ts : List ℚ) :
    (gather ts (argsort ts)).Pairwise (· ≤ ·) := by
  have h := List.sorted_insertionSort (idxLe ts) (List.range ts.length)
  have h2 : (argsort ts).Pairwise (fun i j => ts.getD i 0 ≤ ts.getD j 0) := by
    refine h.imp ?_
    intro i j hij
    rcases hij with hlt | ⟨heq, _⟩
    · exact le_of_lt hlt
    · exact le_of_eq heq
  rw [gather, List.pairwise_map]
  exact h2

theorem scatterSet_getD_not_mem (i : ℕ) :
    ∀ (inds : List ℕ) (vs ys : List ℚ), i ∉ inds →
      (scatterSet ys inds vs).getD i 0 = ys.getD i 0 := by
  intro inds
  induction inds with
  | nil =>
    intro vs ys _
    cases vs <;> rfl
  | cons j js ih =>
    intro vs ys hmem
    cases vs with
    | nil => rfl
    | cons v vs' =>
      have hij : i ≠ j := fun h => hmem (h ▸ List.mem_cons_self j js)
      have hi : i ∉ js := fun h => hmem (List.mem_cons_of_mem _ h)
      simp only [scatterSet]
      rw [ih vs' _ hi, List.getD_eq_getElem?_getD, List.getD_eq_getElem?_getD,
        List.getElem?_set_ne (Ne.symm hij)]

theorem gather_scatterSet :
    ∀ (inds : List ℕ) (vs ys : List ℚ), inds.Nodup →
      (∀ i ∈ inds, i < ys.length) → vs.length = inds.length →
      gather (scatterSet ys inds vs) inds = vs := by
  intro inds
  induction inds with
  | nil =>
    intro vs ys _ _ hlen
    cases vs with
    | nil => rfl
    | cons v vs' => simp at hlen
  | cons j js ih =>
    intro vs ys hnd hbound hlen
    cases vs with
    | nil => simp at hlen
    | cons v vs' =>
      obtain ⟨hj, hjs⟩ := List.nodup_cons.mp hnd
      simp only [scatterSet, gather, List.map_cons]
      have hjlen : j < ys.length := hbound j (List.mem_cons_self j js)
      congr 1
      · rw [scatterSet_getD_not_mem j js vs' _ hj,
          List.getD_eq_getElem?_getD, List.getElem?_set_self hjlen]
        rfl
      · have hb : ∀ i ∈ js, i < (ys.set j v).length := by
          intro i hi
          rw [List.length_set]
          exact hbound i (List.mem_cons_of_mem _ hi)
        have := ih vs' (ys.set j v) hjs hb (by simpa using hlen)
        simpa [gather] using this

/-- C9: `build_gp` hands the GP its inputs sorted by lag-transformed time
and permuted by one shared index list: the sorted times are non-decreasing;
the times, band indices and noise variances are the originals gathered
through `inds`; `inds` is a permutation of all observation indices; the
loss closure and the numpyro model condition on `y[inds]` with that same
`inds`; and the generation cell scatters the GP sample through `inds`, so
the generated observations read back in GP order are exactly the sample. -/
theorem C9_build_gp_sorted_consistent (gpLogProb : GPInputs → List ℚ → ℚ)
    (lag : ℚ) (X_t : List ℚ) (X_band : List ℕ)
    (diag y empty sample : List ℚ) :
    (build_gp lag X_t X_band diag).t_sorted.Pairwise (· ≤ ·)
    ∧ (build_gp lag X_t X_band diag).inds.Perm
        (List.range (lagged_times lag X_t X_band).length)
    ∧ (build_gp lag X_t X_band diag).t_sorted
        = gather (lagged_times lag X_t X_band) (build_gp lag X_t X_band diag).inds
    ∧ (build_gp lag X_t X_band diag).band_sorted
        = (build_gp lag X_t X_band diag).inds.map (fun i => X_band.getD i 0)
    ∧ (build_gp lag X_t X_band diag).diag_sorted
        = gather diag (build_gp lag X_t X_band diag).inds
    ∧ quasar_loss gpLogProb lag X_t X_band diag y
        = -(gpLogProb (build_gp lag X_t X_band diag)
            (gather y (build_gp lag X_t X_band diag).inds))
    ∧ quasar_model_obs lag X_t X_band diag y
        = (build_gp lag X_t X_band diag,
            gather y (build_gp lag X_t X_band diag).inds)
    ∧ (empty.length = (lagged_times lag X_t X_band).length →
        sample.length = (build_gp lag X_t X_band diag).inds.length →
        gather (quasar_generate lag X_t X_band diag empty sample)
            (build_gp lag X_t X_band diag).inds = sample) := by
  refine ⟨argsort_sorted _, argsort_perm _, rfl, rfl, rfl, rfl, rfl, ?_⟩
  intro hlen1 hlen2
  apply gather_scatterSet
  · exact argsort_nodup _
  · intro i hi
    rw [hlen1]
    exact argsort_mem_lt _ i hi
  · exact hlen2

/-- C9 witness: the theorem applied at a concrete two-point data set; the
length hypotheses are discharged by computation. -/
theorem C9_build_gp_sorted_consistent_witness :
    gather (quasar_generate 1 [3, 1] [0, 1] [5, 6] [0, 0] [7, 8])
        (build_gp 1 [3, 1] [0, 1] [5, 6]).inds = [7, 8] := by
  have h := C9_build_gp_sorted_consistent (fun _ _ => 0) 1 [3, 1] [0, 1]
    [5, 6] [10, 20] [0, 0] [7, 8]
  refine h.2.2.2.2.2.2.2 ?_ ?_
  · simp [lagged_times]
  · rw [show (build_gp 1 [3, 1] [0, 1] [5, 6]).inds
        = argsort (lagged_times 1 [3, 1] [0, 1]) from rfl]
    rw [argsort, List.length_insertionSort, List.length_range]
    simp [lagged_times]

/-! ## Transit notebook: model structure (C10)

Source (transit.ipynb): the `model(t, y_err, y=None, use_gp=True)` function
samples log_jitter, log_f0, u, t0, log_r; fixes log_duration = jnp.log(0.12)
and b = 0.1 in the params dict; in the GP branch additionally samples
log_amp, log_ell and uses `build_gp(params, t, diag=y_err**2 + exp(2*log_jitter))`
whose mean is `partial(light_curve, params)`; in the white-noise branch uses
`dist.Normal(light_curve(params, t), sqrt(y_err**2 + exp(2*log_jitter)))`. -/

/-- The parameters `light_curve` reads from the params dict. -/
structure LCParams where
  log_f0 : ℚ
  u1 : ℚ
  u2 : ℚ
  log_duration : ℚ
  t0 : ℚ
  b : ℚ
  log_r : ℚ

/-- The external exo4jax evaluation
`QuadLightCurve.init(u1, u2).light_curve(TransitOrbit.init(period, duration,
time_transit, impact_param, radius), t)[0]`, abstract. -/
structure LCExt where
  quadLC : ℚ → ℚ → ℚ → ℚ → ℚ → ℚ → ℚ → ℚ → ℚ

/-- `light_curve(params, t, period=1.0)`:
`exp(log_f0) * (1 + lc.light_curve(orbit, t)[0])`. -/
def light_curve (fns : RealFns) (ext : LCExt) (p : LCParams)
    (period t : ℚ) : ℚ :=
  fns.expFn p.log_f0
    * (1 + ext.quadLC p.u1 p.u2 period (fns.expFn p.log_duration) p.t0 p.b
        (fns.expFn p.log_r) t)

/-- The latent draws at the transit model's sample sites. -/
structure TransitLatents where
  log_jitter : ℚ
  log_f0 : ℚ
  u1 : ℚ
  u2 : ℚ
  t0 : ℚ
  log_r : ℚ
  log_amp : ℚ
  log_ell : ℚ

/-- What one evaluation of the transit model determines: the sampled site
names in order, the deterministic site names, the constructed params dict,
the GP kernel parameters when used, the mean light-curve function, and the
per-point observation variance. -/
structure TransitModelOut where
  sites : List String
  dets : List String
  params : LCParams
  kernelAmp2Ell : Option (ℚ × ℚ)
  meanFn : ℚ → ℚ
  diagVal : ℚ

/-- The transit `model(t, y_err, y, use_gp)`, mirroring the source cell. -/
def transit_model (fns : RealFns) (ext : LCExt) (θ : TransitLatents)
    (y_err : ℚ) (use_gp : Bool) : TransitModelOut :=
  let baseSites := ["log_jitter", "log_f0", "u", "t0", "log_r"]
  let params : LCParams :=
    { log_f0 := θ.log_f0, u1 := θ.u1, u2 := θ.u2,
      log_duration := fns.logFn (12/100), t0 := θ.t0, b := 1/10,
      log_r := θ.log_r }
  if use_gp then
    { sites := baseSites ++ ["log_amp", "log_ell"],
      dets := ["r", "mu", "gp"],
      params := params,
      kernelAmp2Ell := some (fns.expFn (2 * θ.log_amp), fns.expFn θ.log_ell),
      meanFn := fun t => light_curve fns ext params 1 t,
      diagVal := y_err^2 + fns.expFn (2 * θ.log_jitter) }
  else
    { sites := baseSites,
      dets := ["r", "mu"],
      params := params,
      kernelAmp2Ell := none,
      meanFn := fun t => light_curve fns ext params 1 t,
      diagVal := y_err^2 + fns.expFn (2 * θ.log_jitter) }

/-- C10: both transit fits hold the transit duration fixed
(log_duration = log 0.12, so duration 0.12 once exp inverts log) and the
impact parameter fixed at 0.1 rather than inferring them; the sampled sites
are exactly log_jitter, log_f0, u, t0, log_r, plus log_amp and log_ell if
and only if the GP noise model is used; and the two fits share the
identical mean light-curve function and the identical per-point variance
`y_err² + exp(2·log_jitter)`. -/
theorem C10_transit_model_structure (fns : RealFns) (ext : LCExt)
    (θ : TransitLatents) (y_err : ℚ) :
    (transit_model fns ext θ y_err true).sites
        = ["log_jitter", "log_f0", "u", "t0", "log_r", "log_amp", "log_ell"]
    ∧ (transit_model fns ext θ y_err false).sites
        = ["log_jitter", "log_f0", "u", "t0", "log_r"]
    ∧ (∀ ug : Bool, (transit_model fns ext θ y_err ug).params.log_duration
          = fns.logFn (12/100)
        ∧ (transit_model fns ext θ y_err ug).params.b = 1/10
        ∧ "log_duration" ∉ (transit_model fns ext θ y_err ug).sites
        ∧ "b" ∉ (transit_model fns ext θ y_err ug).sites)
    ∧ (transit_model fns ext θ y_err true).meanFn
        = (transit_model fns ext θ y_err false).meanFn
    ∧ (transit_model fns ext θ y_err true).diagVal
        = (transit_model fns ext θ y_err false).diagVal
    ∧ (transit_model fns ext θ y_err true).diagVal
        = y_err^2 + fns.expFn (2 * θ.log_jitter)
    ∧ (fns.expFn (fns.logFn (12/100)) = 12/100 →
        ∀ ug : Bool,
          fns.expFn (transit_model fns ext θ y_err ug).params.log_duration
            = 12/100) := by
  refine ⟨rfl, rfl, ?_, rfl, rfl, rfl, ?_⟩
  · intro ug
    cases ug with
    | false =>
      refine ⟨rfl, rfl, ?_, ?_⟩
      · show "log_duration" ∉ ["log_jitter", "log_f0", "u", "t0", "log_r"]
        decide
      · show "b" ∉ ["log_jitter", "log_f0", "u", "t0", "log_r"]
        decide
    | true =>
      refine ⟨rfl, rfl, ?_, ?_⟩
      · show "log_duration"
            ∉ ["log_jitter", "log_f0", "u", "t0", "log_r", "log_amp", "log_ell"]
        decide
      · show "b" ∉ ["log_jitter", "log_f0", "u", "t0", "log_r", "log_amp", "log_ell"]
        decide
  · intro hinv ug
    cases ug <;> exact hinv

/-- C10 witness: the theorem applied with concrete exp/log stand-ins
satisfying `exp (log 0.12) = 0.12`, showing the fixed duration is 0.12. -/
theorem C10_transit_model_structure_witness :
    (⟨fun _ => 12/100, fun _ => 0⟩ : RealFns).expFn
        (transit_model ⟨fun _ => 12/100, fun _ => 0⟩ ⟨fun _ _ _ _ _ _ _ _ => 0⟩
          ⟨0, 0, 0, 0, 0, 0, 0, 0⟩ 1 true).params.log_duration = 12/100 :=
  (C10_transit_model_structure ⟨fun _ => 12/100, fun _ => 0⟩
      ⟨fun _ _ _ _ _ _ _ _ => 0⟩ ⟨0, 0, 0, 0, 0, 0, 0, 0⟩ 1).2.2.2.2.2.2
    rfl true

end AraaGps
